import Mathlib

/-!
# Verification of the online chat messenger (server.py / client.py)

This file shallowly embeds the chat server's registry, control-plane
handler, and UDP relay engine (`src/server.py`) together with the
client's request encoder (`src/client.py`), and proves/refutes the
frozen claims about them.

Modelling conventions:
* Python `dict`s are insertion-ordered association lists (`lookupA`,
  `setA`, `eraseA`).  `setA` replaces the first occurrence in place or
  appends (exactly `d[k] = v`); `eraseA` removes the key (`del d[k]`;
  dicts built by `setA` from `[]` never hold duplicate keys, so
  removing every occurrence coincides with `del`).
* `uuid.uuid4()` minting is modelled by a fresh-counter field
  `nextToken` on the registry: each successful create/join issues the
  current counter value and increments it, which captures the
  "fresh, never reused" property the code relies on.
* Machine bytes are `Nat`s (`< 256` where produced by the code);
  `int.from_bytes(_, "big")` / `int.to_bytes(29, "big")` become
  `fromBytesBE` / `toBytesBE`.
* Python's strict `bytes.decode("utf-8")` is the executable decoder
  `utf8Decode?` below (rejecting overlong forms, surrogates and
  out-of-range codepoints, exactly as CPython does);
  `str.encode("utf-8")` is `utf8Encode`.
* `json.dumps` / `json.loads` are CPython library calls, not repository
  code; they are passed to the embedded handlers as explicit function
  parameters (`dumps : Json → List Nat`, `loads : List Nat → Option Json`,
  where `none` models `UnicodeDecodeError`/`JSONDecodeError`), and
  theorems that need their round-trip behaviour state it as a
  hypothesis.
* Values read out of a decoded JSON payload keep their dynamic type:
  they are stored as `Json` values, exactly as Python stores whatever
  `payload_json.get(...)` returned.
* An uncaught Python exception inside a handler is modelled by the
  handler returning `none` (TCP: no response frame is written) or by
  returning the state unchanged with no outbound datagrams (UDP loop:
  the exception is caught by the `except` in `_udp_server`).
-/

/-! ## Association lists (Python `dict`) -/

/-- First-match lookup, `d[k]` / `k in d`. -/
def lookupA {α β : Type} [DecidableEq α] : List (α × β) → α → Option β
  | [], _ => none
  | (k', v') :: t, k => if k = k' then some v' else lookupA t k

/-- `d[k] = v`: replace the first binding of `k` in place, else append. -/
def setA {α β : Type} [DecidableEq α] : List (α × β) → α → β → List (α × β)
  | [], k, v => [(k, v)]
  | (k', v') :: t, k, v => if k = k' then (k, v) :: t else (k', v') :: setA t k v

/-- `del d[k]` (on duplicate-free lists, which is all the code builds). -/
def eraseA {α β : Type} [DecidableEq α] : List (α × β) → α → List (α × β)
  | [], _ => []
  | (k', v') :: t, k => if k = k' then eraseA t k else (k', v') :: eraseA t k

/-! ## Big-endian byte strings (`int.to_bytes` / `int.from_bytes`) -/

/-- `n.to_bytes(len, "big")` as a list of byte values. -/
def toBytesBE : Nat → Nat → List Nat
  | 0, _ => []
  | len + 1, n => toBytesBE len (n / 256) ++ [n % 256]

/-- `int.from_bytes(bs, "big")`. -/
def fromBytesBE (bs : List Nat) : Nat := bs.foldl (fun a b => a * 256 + b) 0

/-! ## UTF-8 (`str.encode("utf-8")` / strict `bytes.decode("utf-8")`) -/

/-- UTF-8 encoding of one codepoint (CPython `str.encode("utf-8")`, per char). -/
def utf8EncodeChar (c : Char) : List Nat :=
  let v := c.toNat
  if v < 0x80 then [v]
  else if v < 0x800 then [0xC0 + v / 64, 0x80 + v % 64]
  else if v < 0x10000 then [0xE0 + v / 4096, 0x80 + v / 64 % 64, 0x80 + v % 64]
  else [0xF0 + v / 262144, 0x80 + v / 4096 % 64, 0x80 + v / 64 % 64, 0x80 + v % 64]

/-- `str.encode("utf-8")`. -/
def utf8Encode (s : String) : List Nat := (s.data.map utf8EncodeChar).flatten

/-- Strict UTF-8 decoding automaton.  The state is `none` between
characters and `some (need, val, lo)` inside a multi-byte sequence
(`need` continuation bytes still expected, `val` the accumulated
codepoint bits, `lo` the smallest codepoint the chosen length may
encode, rejecting overlong forms).  Surrogates and codepoints above
`0x10FFFF` are rejected, exactly like CPython's strict decoder. -/
def utf8Run : Option (Nat × Nat × Nat) → List Nat → Option (List Char)
  | none, [] => some []
  | some _, [] => none
  | none, b :: t =>
    if b < 0x80 then (utf8Run none t).map (fun cs => Char.ofNat b :: cs)
    else if b < 0xC2 then none
    else if b < 0xE0 then utf8Run (some (1, b - 0xC0, 0x80)) t
    else if b < 0xF0 then utf8Run (some (2, b - 0xE0, 0x800)) t
    else if b < 0xF5 then utf8Run (some (3, b - 0xF0, 0x10000)) t
    else none
  | some (need, val, lo), b :: t =>
    if 0x80 ≤ b ∧ b < 0xC0 then
      if need ≤ 1 then
        if lo ≤ val * 64 + (b - 0x80) ∧ ¬(0xD800 ≤ val * 64 + (b - 0x80) ∧ val * 64 + (b - 0x80) < 0xE000) ∧ val * 64 + (b - 0x80) < 0x110000 then
          (utf8Run none t).map (fun cs => Char.ofNat (val * 64 + (b - 0x80)) :: cs)
        else none
      else utf8Run (some (need - 1, val * 64 + (b - 0x80), lo)) t
    else none

/-- `bytes.decode("utf-8")`: `none` models `UnicodeDecodeError`. -/
def utf8Decode? (bs : List Nat) : Option String := (utf8Run none bs).map fun cs => ⟨cs⟩

/-! ## Substring search (used to state "message contains ..." facts) -/

/-- `startsL p l`: the char list `p` is an initial segment of `l`. -/
def startsL : List Char → List Char → Bool
  | [], _ => true
  | _ :: _, [] => false
  | a :: p, b :: l => a == b && startsL p l

/-- `containsChars p l`: the chars of `p` occur consecutively in `l`. -/
def containsChars (p : String) : List Char → Bool
  | [] => startsL p.data []
  | a :: t => startsL p.data (a :: t) || containsChars p t

/-- Python `p in s` (substring test). -/
def containsStr (s p : String) : Bool := containsChars p s.data

/-! ## Dynamic JSON values (`json.loads` results, `json.dumps` inputs) -/

/-- The JSON value universe CPython's `json` module works with. -/
inductive Json where
  | null : Json
  | bool (b : Bool) : Json
  | num (n : Int) : Json
  | str (s : String) : Json
  | arr (xs : List Json) : Json
  | obj (kvs : List (String × Json)) : Json

/-- Python `d.get(key, default)` for a decoded JSON value known to be a
dict.  (On a non-dict Python raises `AttributeError`; the embedded
handlers below only apply `jget` where the value is a dict, and model
the non-dict path separately.) -/
def jget (j : Json) (key : String) (dflt : Json) : Json :=
  match j with
  | Json.obj kvs => (lookupA kvs key).getD dflt
  | _ => dflt

/-- Python `str.lower()`: lower-case each character.  (CPython applies
the full Unicode mapping; per-char ASCII lowering agrees with it on
every string that can compare equal to the ASCII literal `"/quit"`,
the only use below.) -/
def pyLower (s : String) : String := ⟨s.data.map Char.toLower⟩

/-- Python `str()` / f-string rendering of a dynamic value, for the
value shapes that can reach an f-string in the analysed code paths
(strings, ints, bools, None).  Containers never reach an f-string
there; their rendering here is a placeholder. -/
def pyStr : Json → String
  | Json.str s => s
  | Json.num n => toString n
  | Json.bool true => "True"
  | Json.bool false => "False"
  | Json.null => "None"
  | Json.arr _ => "<list>"
  | Json.obj _ => "<dict>"

/-! ## Data model (`ChatRoom`, `ChatServer` state) -/

/-- One entry of `ChatRoom.tokens`: `(user_name, ip, port)`.  `userName`
and `port` come out of the request's JSON payload and keep their
dynamic type, exactly as Python stores them. -/
structure Member where
  userName : Json
  ip : String
  port : Json

/-- `ChatRoom` (`server.py` lines 9–56): room name, host token, and the
token → member dict.  `created_at` (`time.time()`) is never consulted
by any analysed operation and is omitted. -/
structure ChatRoom where
  roomName : String
  hostToken : Nat
  tokens : List (Nat × Member)

/-- `ChatRoom.add_user`. -/
def ChatRoom.addUser (r : ChatRoom) (token : Nat) (userName : Json) (ip : String)
    (port : Json) : ChatRoom :=
  { r with tokens := setA r.tokens token ⟨userName, ip, port⟩ }

/-- `ChatRoom.remove_user` (`if token in self.tokens: del ...`; erasing
an absent key is already the identity). -/
def ChatRoom.removeUser (r : ChatRoom) (token : Nat) : ChatRoom :=
  { r with tokens := eraseA r.tokens token }

/-- `ChatRoom.is_host`. -/
def ChatRoom.isHost (r : ChatRoom) (token : Nat) : Bool :=
  token == r.hostToken

/-- `ChatRoom.validated_token`: `token in self.tokens and self.tokens[token][1] == ip`. -/
def ChatRoom.validatedToken (r : ChatRoom) (token : Nat) (ip : String) : Bool :=
  match lookupA r.tokens token with
  | some m => m.ip == ip
  | none => false

/-- The mutable state of `ChatServer`: the room table, the
token → `(ip, port)` table, and the fresh-token counter modelling
`uuid.uuid4()` (tokens are rendered `toString` where the code renders
the UUID as text). -/
structure Registry where
  chatRooms : List (String × ChatRoom)
  clientAddresses : List (Nat × (String × Json))
  nextToken : Nat

/-- The freshly started server: both dicts empty. -/
def Registry.init : Registry := ⟨[], [], 0⟩

/-- The error-response dict the server builds:
`{"state": 1, "status": "error", "message": msg}`. -/
def errResp (msg : String) : Json :=
  Json.obj [("state", Json.num 1), ("status", Json.str "error"), ("message", Json.str msg)]

/-- `ChatServer._create_room`. -/
def createRoom (st : Registry) (roomName : String) (userName : Json) (ip : String)
    (udpPort : Json) : Registry × Json :=
  if (lookupA st.chatRooms roomName).isSome then
    (st, errResp "ルームが作成済みです")
  else
    let hostToken := st.nextToken
    let room := ChatRoom.addUser ⟨roomName, hostToken, []⟩ hostToken userName ip udpPort
    ({ chatRooms := setA st.chatRooms roomName room,
       clientAddresses := setA st.clientAddresses hostToken (ip, udpPort),
       nextToken := st.nextToken + 1 },
     Json.obj [("state", Json.num 2), ("status", Json.str "success"),
       ("token", Json.str (toString hostToken)), ("user_name", userName),
       ("message", Json.str ("ルーム名：" ++ roomName ++ "が作成されました"))])

/-- `ChatServer._join_room`. -/
def joinRoom (st : Registry) (roomName : String) (userName : Json) (ip : String)
    (udpPort : Json) : Registry × Json :=
  match lookupA st.chatRooms roomName with
  | none => (st, errResp "ルームが存在しません")
  | some room =>
    let userToken := st.nextToken
    ({ chatRooms := setA st.chatRooms roomName (room.addUser userToken userName ip udpPort),
       clientAddresses := setA st.clientAddresses userToken (ip, udpPort),
       nextToken := st.nextToken + 1 },
     Json.obj [("state", Json.num 2), ("status", Json.str "success"),
       ("token", Json.str (toString userToken)), ("user_name", userName),
       ("message", Json.str ("ルーム名：" ++ roomName ++ "に参加しました"))])

/-- `ChatServer._list_rooms`. -/
def listRooms (st : Registry) : Json :=
  Json.obj [("state", Json.num 2), ("status", Json.str "success"),
    ("message", Json.arr (st.chatRooms.map fun kv => Json.str kv.1))]

/-! ## Control-plane handler (`_handle_tcp_client`, `_sned_tcp_response`) -/

/-- The payload-handling block of `_handle_tcp_client` (lines 158–184):
with `payload_data_size > 0` the payload slice is UTF-8-decoded and
`json.loads`-parsed (`loads` returning `none` models either exception,
both caught and replaced by defaults), then `user_name` / `udp_port`
are read with `dict.get` defaults; a non-dict payload raises
`AttributeError`, also caught and replaced by defaults.  With
`payload_data_size == 0` the defaults are used directly. -/
def payloadFields (loads : List Nat → Option Json) (payloadSize : Nat)
    (payloadBytes : List Nat) : Json × Json :=
  if 0 < payloadSize then
    match loads payloadBytes with
    | some (Json.obj kvs) =>
        ((lookupA kvs "user_name").getD (Json.str ""),
         (lookupA kvs "udp_port").getD (Json.num 0))
    | some _ => (Json.str "", Json.num 0)
    | none => (Json.str "", Json.num 0)
  else (Json.str "", Json.num 0)

/-- The request-parsing phase of `_handle_tcp_client` (lines 133–191),
reading from the byte stream `data` the client sent:
`recv(32)` yields the first (up to) 32 bytes; indexing `header_data[0..2]`
raises `IndexError` when fewer than 3 bytes arrived (caught by the
handler's outer `except`, modelled as `none`); the payload size is
`int.from_bytes(header_data[3:32], "big")`; the body is the next (up to)
`L+P` bytes; the room-name slice must UTF-8-decode (otherwise the
uncaught `UnicodeDecodeError` aborts the handler: `none`); payload
failures do NOT abort — they are defaulted by `payloadFields`.
Returns `(operation, state, room_name, user_name, udp_port)`. -/
def decodeRequest (loads : List Nat → Option Json) (data : List Nat) :
    Option (Nat × Nat × String × Json × Json) :=
  if data.length < 3 then none
  else
    let roomNameSize := data.getD 0 0
    let operation := data.getD 1 0
    let state := data.getD 2 0
    let payloadSize := fromBytesBE ((data.take 32).drop 3)
    let body := (data.drop 32).take (roomNameSize + payloadSize)
    match utf8Decode? (body.take roomNameSize) with
    | none => none
    | some roomName =>
      let fields := payloadFields loads payloadSize (body.drop roomNameSize)
      some (operation, state, roomName, fields.1, fields.2)

/-- The response frame `_sned_tcp_response` writes: a 32-byte header
(room-name length, operation, the response dict's `"state"` value, and
the 29-byte big-endian length of the JSON body) followed by the room
name and the `json.dumps` of the response dict.  The dict itself is
kept as `Json` (its serialization is CPython's `json.dumps`). -/
structure RespFrame where
  roomName : String
  operation : Nat
  stateByte : Nat
  body : Json

/-- `header_data[2] = response_data.get("state", 0)` (always an int in
every dict the server builds). -/
def respStateByte (resp : Json) : Nat :=
  match jget resp "state" (Json.num 0) with
  | Json.num n => n.toNat
  | _ => 0

/-- `ChatServer._sned_tcp_response` (the frame it emits). -/
def sendTcpResponse (roomName : String) (operation : Nat) (resp : Json) : RespFrame :=
  ⟨roomName, operation, respStateByte resp, resp⟩

/-- `ChatServer._handle_tcp_client`: parse, dispatch on
`(state, operation)`, and answer.  `none` in the second component means
the connection was closed without any response frame (either a parse
exception reached the outer `except`, or `state != 0` so the dispatch
block was skipped).  Every dispatched operation returns a dict, so the
`response_data is not None` guard always passes. -/
def handleTcpClient (loads : List Nat → Option Json) (st : Registry) (clientIp : String)
    (data : List Nat) : Registry × Option RespFrame :=
  match decodeRequest loads data with
  | none => (st, none)
  | some (operation, state, roomName, userName, udpPort) =>
    if state = 0 then
      let dispatched : Registry × Json :=
        if operation = 1 then createRoom st roomName userName clientIp udpPort
        else if operation = 2 then joinRoom st roomName userName clientIp udpPort
        else if operation = 3 then (st, listRooms st)
        else (st, errResp "不正な操作です")
      (dispatched.1, some (sendTcpResponse roomName operation dispatched.2))
    else (st, none)

/-! ## Relay engine (`_relay_message`) -/

/-- `ChatServer._relay_message`.  Returns the new registry state and
the list of `(address, text)` datagrams passed to `udp_socket.sendto`,
in order.  Faithful to the source's control flow:
* an unknown room name returns immediately (no sends);
* a failed `validated_token` check (token unknown OR source IP mismatch)
  is only *logged* — the source has no `return` there, so execution
  falls through;
* the following `room.tokens[token]` subscript raises `KeyError` when
  the token is not a member; `_udp_server` catches it (no sends, state
  unchanged) — so an IP mismatch alone does NOT stop the relay. -/
def relayMessage (st : Registry) (roomName : String) (token : Nat) (message : String)
    (senderIp : String) : Registry × List ((String × Json) × String) :=
  match lookupA st.chatRooms roomName with
  | none => (st, [])
  | some room =>
    match lookupA room.tokens token with
    | none => (st, [])
    | some sender =>
      let senderUserName := pyStr sender.userName
      if pyLower message = "/quit" then
        if room.isHost token then
          let quitMsg := "[システム]: ホストが退出したため、ルーム:" ++ roomName ++ "が閉じられました"
          let sends := (room.tokens.filter fun kv => !(kv.1 == token)).map
            fun kv => ((kv.2.ip, kv.2.port), quitMsg)
          ({ st with chatRooms := eraseA st.chatRooms roomName,
                     clientAddresses :=
                       room.tokens.foldl (fun ca kv => eraseA ca kv.1) st.clientAddresses },
           sends)
        else
          let room' := room.removeUser token
          let leaveMsg := "[システム]: " ++ senderUserName ++ "が退出しました"
          ({ st with chatRooms := setA st.chatRooms roomName room',
                     clientAddresses := eraseA st.clientAddresses token },
           room'.tokens.map fun kv => ((kv.2.ip, kv.2.port), leaveMsg))
      else
        let fmsg := "[" ++ senderUserName ++ "]: " ++ message
        (st, (room.tokens.filter fun kv => !(kv.1 == token)).map
          fun kv => ((kv.2.ip, kv.2.port), fmsg))

/-! ## Client request encoder (`ChatClient._send_tcp_request`) -/

/-- The request bytes `_send_tcp_request` puts on the wire:
`[len(name)] [operation] [0] [29-byte BE payload length] name payload`
with `payload = json.dumps({"user_name": ..., "udp_port": ...})`.
`none` models the exceptions CPython raises while building the header
(a room name over 255 UTF-8 bytes, an operation over 255, or a payload
length that does not fit 29 bytes). -/
def sendTcpRequest (dumps : Json → List Nat) (roomName userName : String)
    (myUdpPort : Int) (operation : Nat) : Option (List Nat) :=
  let roomNameBytes := utf8Encode roomName
  let payloadBytes :=
    dumps (Json.obj [("user_name", Json.str userName), ("udp_port", Json.num myUdpPort)])
  if roomNameBytes.length ≤ 255 ∧ operation ≤ 255 ∧ payloadBytes.length < 256 ^ 29 then
    some (roomNameBytes.length :: operation :: 0 ::
      (toBytesBE 29 payloadBytes.length ++ roomNameBytes ++ payloadBytes))
  else none

/-! ## Whole-system steps (for reachability invariants) -/

/-- One externally triggered step: a control-plane connection carrying
arbitrary bytes, or one relay datagram (already split into its fields). -/
inductive SysOp where
  | tcp (clientIp : String) (data : List Nat) : SysOp
  | udp (roomName : String) (token : Nat) (message : String) (senderIp : String) : SysOp

/-- Apply one step to the registry. -/
def stepOp (loads : List Nat → Option Json) (st : Registry) : SysOp → Registry
  | SysOp.tcp ip data => (handleTcpClient loads st ip data).1
  | SysOp.udp n t m i => (relayMessage st n t m i).1

/-- The registry after serving a sequence of steps from server start. -/
def runOps (loads : List Nat → Option Json) (ops : List SysOp) : Registry :=
  ops.foldl (stepOp loads) Registry.init

/-- Every active room's host token is a key of that room's membership. -/
def HostInvariant (st : Registry) : Prop :=
  ∀ name room, lookupA st.chatRooms name = some room →
    (lookupA room.tokens room.hostToken).isSome = true

/-! ## Concrete fixtures (two-member room "lobby": host alice, member bob) -/

/-- alice, the host of `"lobby"`: joined from IP `10.0.0.1`, UDP port 2222. -/
def aliceM : Member := ⟨Json.str "alice", "10.0.0.1", Json.num 2222⟩

/-- bob, an ordinary member: joined from IP `10.0.0.2`, UDP port 3333. -/
def bobM : Member := ⟨Json.str "bob", "10.0.0.2", Json.num 3333⟩

/-- The room `"lobby"`, hosted by alice (token 0), with member bob (token 1). -/
def lobbyRoom : ChatRoom := ⟨"lobby", 0, [(0, aliceM), (1, bobM)]⟩

/-- The registry after alice created `"lobby"` and bob joined it. -/
def lobbyRegistry : Registry :=
  ⟨[("lobby", lobbyRoom)],
   [(0, ("10.0.0.1", Json.num 2222)), (1, ("10.0.0.2", Json.num 3333))], 2⟩

/-- A create request whose header is well formed (room-name length 1,
operation 1, state 0, payload length 0) but whose room-name slice is the
single byte `0xFF`, which is not valid UTF-8. -/
def badNameRequest : List Nat := 1 :: 1 :: 0 :: (toBytesBE 29 0 ++ [0xFF])

/-- A well-formed create request for room `"lobby"` (operation 1,
state 0, empty payload; the body is the ASCII bytes of `lobby`). -/
def createLobbyRequest : List Nat :=
  5 :: 1 :: 0 :: (toBytesBE 29 0 ++ [108, 111, 98, 98, 121])


/-! ## Helper lemmas -/

theorem lookupA_setA_self {α β : Type} [DecidableEq α] (l : List (α × β)) (k : α) (v : β) :
    lookupA (setA l k v) k = some v := by
  induction l with
  | nil => simp [lookupA, setA]
  | cons hd t ih =>
    obtain ⟨k', v'⟩ := hd
    by_cases h : k = k' <;> simp [lookupA, setA, h, ih]

theorem lookupA_setA_ne {α β : Type} [DecidableEq α] (l : List (α × β)) (k k' : α) (v : β)
    (h : k' ≠ k) : lookupA (setA l k v) k' = lookupA l k' := by
  induction l with
  | nil => simp [lookupA, setA, h]
  | cons hd t ih =>
    obtain ⟨k₀, v₀⟩ := hd
    by_cases h₀ : k = k₀
    · subst h₀; simp [lookupA, setA, h]
    · by_cases h₁ : k' = k₀ <;> simp [lookupA, setA, h₀, h₁, ih]

theorem lookupA_eraseA_self {α β : Type} [DecidableEq α] (l : List (α × β)) (k : α) :
    lookupA (eraseA l k) k = none := by
  induction l with
  | nil => simp [lookupA, eraseA]
  | cons hd t ih =>
    obtain ⟨k', v'⟩ := hd
    by_cases h : k = k'
    · subst h; simp [eraseA, ih]
    · simp [lookupA, eraseA, h, ih]

theorem lookupA_eraseA_ne {α β : Type} [DecidableEq α] (l : List (α × β)) (k k' : α)
    (h : k' ≠ k) : lookupA (eraseA l k) k' = lookupA l k' := by
  induction l with
  | nil => simp [lookupA, eraseA]
  | cons hd t ih =>
    obtain ⟨k₀, v₀⟩ := hd
    by_cases h₀ : k = k₀
    · subst h₀; simp [lookupA, eraseA, h, ih]
    · by_cases h₁ : k' = k₀ <;> simp [lookupA, eraseA, h₀, h₁, ih]

theorem length_toBytesBE (len n : Nat) : (toBytesBE len n).length = len := by
  induction len generalizing n with
  | zero => rfl
  | succ l ih => simp [toBytesBE, ih]

theorem foldlBE_acc (bs : List Nat) (a : Nat) :
    bs.foldl (fun a b => a * 256 + b) a = a * 256 ^ bs.length + bs.foldl (fun a b => a * 256 + b) 0 := by
  induction bs generalizing a with
  | nil => simp
  | cons b t ih =>
    simp only [List.foldl_cons, List.length_cons]
    rw [ih (a * 256 + b), ih (0 * 256 + b)]
    ring

theorem fromBytesBE_toBytesBE (len n : Nat) (h : n < 256 ^ len) :
    fromBytesBE (toBytesBE len n) = n := by
  induction len generalizing n with
  | zero =>
    simp only [Nat.pow_zero, Nat.lt_one_iff] at h
    simp [toBytesBE, fromBytesBE, h]
  | succ l ih =>
    have hdiv : n / 256 < 256 ^ l := by
      rw [Nat.div_lt_iff_lt_mul (by norm_num : 0 < 256)]
      calc n < 256 ^ (l + 1) := h
        _ = 256 ^ l * 256 := by ring
    simp only [toBytesBE, fromBytesBE, List.foldl_append, List.foldl_cons, List.foldl_nil]
    rw [show (toBytesBE l (n / 256)).foldl (fun a b => a * 256 + b) 0 = fromBytesBE (toBytesBE l (n / 256)) from rfl]
    rw [ih (n / 256) hdiv]
    omega

theorem utf8Run_encodeChar (c : Char) (rest : List Nat) :
    utf8Run none (utf8EncodeChar c ++ rest) = (utf8Run none rest).map (fun cs => c :: cs) := by
  have hv : c.toNat < 0xd800 ∨ (0xdfff < c.toNat ∧ c.toNat < 0x110000) := c.valid
  by_cases h1 : c.toNat < 0x80
  · simp only [utf8EncodeChar, if_pos h1, List.cons_append, List.nil_append]
    simp [utf8Run, h1, Char.ofNat_toNat]
  · by_cases h2 : c.toNat < 0x800
    · have e1 : ¬(0xC0 + c.toNat / 64 < 0x80) := by omega
      have e2 : ¬(0xC0 + c.toNat / 64 < 0xC2) := by omega
      have e3 : 0xC0 + c.toNat / 64 < 0xE0 := by omega
      have e4 : 0xC0 + c.toNat / 64 - 0xC0 = c.toNat / 64 := by omega
      have e5 : 0x80 ≤ 0x80 + c.toNat % 64 ∧ 0x80 + c.toNat % 64 < 0xC0 := by omega
      have e6 : c.toNat / 64 * 64 + (0x80 + c.toNat % 64 - 0x80) = c.toNat := by omega
      have e7 : 0x80 ≤ c.toNat ∧ ¬(0xD800 ≤ c.toNat ∧ c.toNat < 0xE000) ∧ c.toNat < 0x110000 := by omega
      simp only [utf8EncodeChar, if_neg h1, if_pos h2, List.cons_append, List.nil_append]
      simp [utf8Run, e1, e2, e3, e4, e5]
      rw [show c.toNat / 64 * 64 + c.toNat % 64 = c.toNat by omega]
      rw [if_pos (by omega)]
      simp [Char.ofNat_toNat]
    · by_cases h3 : c.toNat < 0x10000
      · have e1 : ¬(0xE0 + c.toNat / 4096 < 0x80) := by omega
        have e2 : ¬(0xE0 + c.toNat / 4096 < 0xC2) := by omega
        have e3 : ¬(0xE0 + c.toNat / 4096 < 0xE0) := by omega
        have e4 : 0xE0 + c.toNat / 4096 < 0xF0 := by omega
        have e5 : 0xE0 + c.toNat / 4096 - 0xE0 = c.toNat / 4096 := by omega
        have e6 : 0x80 ≤ 0x80 + c.toNat / 64 % 64 ∧ 0x80 + c.toNat / 64 % 64 < 0xC0 := by omega
        have e7 : c.toNat / 4096 * 64 + (0x80 + c.toNat / 64 % 64 - 0x80) = c.toNat / 64 := by omega
        have e8 : 0x80 ≤ 0x80 + c.toNat % 64 ∧ 0x80 + c.toNat % 64 < 0xC0 := by omega
        have e9 : c.toNat / 64 * 64 + (0x80 + c.toNat % 64 - 0x80) = c.toNat := by omega
        have e10 : 0x800 ≤ c.toNat ∧ ¬(0xD800 ≤ c.toNat ∧ c.toNat < 0xE000) ∧ c.toNat < 0x110000 := by omega
        simp only [utf8EncodeChar, if_neg h1, if_neg h2, if_pos h3, List.cons_append,
          List.nil_append]
        simp [utf8Run, e1, e2, e3, e4, e5, e6, e7, e8]
        rw [show (c.toNat / 4096 * 64 + c.toNat / 64 % 64) * 64 + c.toNat % 64 = c.toNat by omega]
        rw [if_pos (by omega)]
        simp [Char.ofNat_toNat]
      · have hhi : c.toNat < 0x110000 := by omega
        have e1 : ¬(0xF0 + c.toNat / 262144 < 0x80) := by omega
        have e2 : ¬(0xF0 + c.toNat / 262144 < 0xC2) := by omega
        have e3 : ¬(0xF0 + c.toNat / 262144 < 0xE0) := by omega
        have e4 : ¬(0xF0 + c.toNat / 262144 < 0xF0) := by omega
        have e5 : 0xF0 + c.toNat / 262144 < 0xF5 := by omega
        have e6 : 0xF0 + c.toNat / 262144 - 0xF0 = c.toNat / 262144 := by omega
        have e7 : 0x80 ≤ 0x80 + c.toNat / 4096 % 64 ∧ 0x80 + c.toNat / 4096 % 64 < 0xC0 := by omega
        have e8 : c.toNat / 262144 * 64 + (0x80 + c.toNat / 4096 % 64 - 0x80) = c.toNat / 4096 := by omega
        have e9 : 0x80 ≤ 0x80 + c.toNat / 64 % 64 ∧ 0x80 + c.toNat / 64 % 64 < 0xC0 := by omega
        have e10 : c.toNat / 4096 * 64 + (0x80 + c.toNat / 64 % 64 - 0x80) = c.toNat / 64 := by omega
        have e11 : 0x80 ≤ 0x80 + c.toNat % 64 ∧ 0x80 + c.toNat % 64 < 0xC0 := by omega
        have e12 : c.toNat / 64 * 64 + (0x80 + c.toNat % 64 - 0x80) = c.toNat := by omega
        have e13 : 0x10000 ≤ c.toNat ∧ ¬(0xD800 ≤ c.toNat ∧ c.toNat < 0xE000) ∧ c.toNat < 0x110000 := by omega
        simp only [utf8EncodeChar, if_neg h1, if_neg h2, if_neg h3, List.cons_append,
          List.nil_append]
        simp [utf8Run, e1, e2, e3, e4, e5, e6, e7, e8, e9, e10, e11]
        rw [show ((c.toNat / 262144 * 64 + c.toNat / 4096 % 64) * 64 + c.toNat / 64 % 64) * 64 + c.toNat % 64 = c.toNat by omega]
        rw [if_pos (by omega)]
        simp [Char.ofNat_toNat]

theorem utf8Run_encode_list (cs : List Char) (rest : List Nat) :
    utf8Run none ((cs.map utf8EncodeChar).flatten ++ rest)
      = (utf8Run none rest).map (fun ds => cs ++ ds) := by
  induction cs with
  | nil =>
    simp only [List.map_nil, List.flatten_nil, List.nil_append]
    cases utf8Run none rest <;> simp
  | cons c t ih =>
    simp only [List.map_cons, List.flatten_cons, List.append_assoc]
    rw [utf8Run_encodeChar c, ih]
    cases utf8Run none rest <;> simp

theorem utf8Decode?_utf8Encode (s : String) : utf8Decode? (utf8Encode s) = some s := by
  have h : utf8Encode s = (s.data.map utf8EncodeChar).flatten ++ [] := by
    simp [utf8Encode]
  rw [utf8Decode?, h, utf8Run_encode_list]
  show some ⟨s.data ++ []⟩ = some s
  simp

theorem startsL_self_append (p x : List Char) : startsL p (p ++ x) = true := by
  induction p with
  | nil => rfl
  | cons a t ih => simp [startsL, ih]

theorem containsChars_pre_self (p : String) (pre x : List Char) :
    containsChars p (pre ++ (p.data ++ x)) = true := by
  induction pre with
  | nil =>
    simp only [List.nil_append]
    cases h : p.data ++ x with
    | nil =>
      have hp : p.data = [] := (List.append_eq_nil.mp h).1
      simp [containsChars, hp, startsL]
    | cons a t =>
      rw [containsChars, ← h, startsL_self_append]
      simp
  | cons a t ih => simp [containsChars, ih]

theorem containsStr_sandwich (a p b : String) : containsStr (a ++ p ++ b) p = true := by
  have h : (a ++ p ++ b).data = a.data ++ (p.data ++ b.data) := by
    simp [String.data_append]
  rw [containsStr, h, containsChars_pre_self]

/-! ## Claims -/

/-- C1: the claim says a relay datagram whose token is a current member
but whose source IP differs from the recorded one is dropped with no
fan-out.  The code disagrees: `validated_token` fails for bob's token
from the spoofed IP `6.6.6.6` (first conjunct), yet `_relay_message`
only logs the failure (its `return` is missing) and still fans the chat
line out to alice (second conjunct). -/
theorem relay_ip_mismatch_still_fans_out :
    ChatRoom.validatedToken lobbyRoom 1 "6.6.6.6" = false ∧
    (relayMessage lobbyRegistry "lobby" 1 "hello" "6.6.6.6").2
      = [(("10.0.0.1", Json.num 2222), "[bob]: hello")] := ⟨rfl, rfl⟩

/-- C2 counterexample: a request whose room-name slice is not valid
UTF-8 (the byte `0xFF`) is a decode failure, but the handler answers it
with no response frame at all — the `UnicodeDecodeError` reaches the
outer `except`, which only logs and closes the socket.  This refutes
"every decode failure yields an error-response frame". -/
theorem decode_failure_goes_unanswered :
    utf8Decode? [0xFF] = none ∧
    (handleTcpClient (fun _ => none) Registry.init "10.0.0.1" badNameRequest).2 = none :=
  ⟨rfl, rfl⟩

/-- C7 counterexample: when host alice sends `/quit` for `"lobby"`, the
one system notice bob receives is the Japanese closure notice, which
does not contain the literal string `"closed"` — refuting the claim's
"notice containing \x22closed\x22" as stated. -/
theorem host_quit_notice_lacks_closed :
    (relayMessage lobbyRegistry "lobby" 0 "/quit" "10.0.0.1").2 =
      [(("10.0.0.2", Json.num 3333),
        "[システム]: ホストが退出したため、ルーム:lobbyが閉じられました")] ∧
    containsStr "[システム]: ホストが退出したため、ルーム:lobbyが閉じられました" "closed" = false :=
  ⟨rfl, rfl⟩

/-- C4: `validated_token room tok ip` succeeds exactly when `tok` is a
key of the room's current membership and `ip` equals the IP stored in
that member record (the IP captured when the member was inserted); with
any other IP it fails; and right after `add_user tok u ip p`, validation
of `tok` against `ip'` succeeds iff `ip' = ip`. -/
theorem validatedToken_iff (room : ChatRoom) (tok : Nat) (ip : String) :
    (room.validatedToken tok ip = true ↔
      ∃ m, lookupA room.tokens tok = some m ∧ m.ip = ip) ∧
    (∀ m, lookupA room.tokens tok = some m → ip ≠ m.ip →
      room.validatedToken tok ip = false) ∧
    (∀ u p ip', (room.addUser tok u ip p).validatedToken tok ip' = (ip == ip')) := by
  refine ⟨?_, ?_, ?_⟩
  · unfold ChatRoom.validatedToken
    cases h : lookupA room.tokens tok with
    | none => simp
    | some m =>
      constructor
      · intro hb
        exact ⟨m, rfl, eq_of_beq hb⟩
      · rintro ⟨m', hm', hip⟩
        injection hm' with h'
        subst h'
        exact beq_iff_eq.mpr hip
  · intro m hm hne
    unfold ChatRoom.validatedToken
    rw [hm]
    simp only [beq_eq_false_iff_ne, ne_eq]
    exact fun he => hne he.symm
  · intro u p ip'
    unfold ChatRoom.validatedToken ChatRoom.addUser
    simp [lookupA_setA_self]

/-- C4 witness: bob's token from bob's recorded IP validates in the
fixture room. -/
theorem validatedToken_iff_witness :
    ChatRoom.validatedToken lobbyRoom 1 "10.0.0.2" = true :=
  (validatedToken_iff lobbyRoom 1 "10.0.0.2").1.mpr ⟨bobM, rfl, rfl⟩

/-- C3: `_create_room` fails (with the room-exists error dict, leaving
the registry untouched) exactly when the name is already active, and
otherwise mints the fresh token as host, inserts the creating member and
reports success; `_join_room` fails with the room-not-found error dict
exactly when the name has no active room, and otherwise mints a fresh
token and inserts the member.  Consequently create-then-join on the same
name never fails with room-not-found, and a second create before any
teardown fails with room-exists. -/
theorem createRoom_joinRoom_spec (st : Registry) (name : String) (u u' : Json)
    (ip ip' : String) (p p' : Json) :
    ((createRoom st name u ip p).2 = errResp "ルームが作成済みです" ↔
      (lookupA st.chatRooms name).isSome = true) ∧
    ((lookupA st.chatRooms name).isSome = true → (createRoom st name u ip p).1 = st) ∧
    ((joinRoom st name u ip p).2 = errResp "ルームが存在しません" ↔
      lookupA st.chatRooms name = none) ∧
    (lookupA st.chatRooms name = none →
      (createRoom st name u ip p).1.nextToken = st.nextToken + 1 ∧
      lookupA (createRoom st name u ip p).1.chatRooms name =
        some ⟨name, st.nextToken, [(st.nextToken, ⟨u, ip, p⟩)]⟩ ∧
      jget (createRoom st name u ip p).2 "token" Json.null =
        Json.str (toString st.nextToken) ∧
      jget (createRoom st name u ip p).2 "status" Json.null = Json.str "success" ∧
      (joinRoom (createRoom st name u ip p).1 name u' ip' p').2 ≠
        errResp "ルームが存在しません" ∧
      (createRoom (createRoom st name u ip p).1 name u' ip' p').2 =
        errResp "ルームが作成済みです" ∧
      (createRoom (createRoom st name u ip p).1 name u' ip' p').1 =
        (createRoom st name u ip p).1) ∧
    (∀ room, lookupA st.chatRooms name = some room →
      lookupA (joinRoom st name u ip p).1.chatRooms name =
        some (room.addUser st.nextToken u ip p) ∧
      jget (joinRoom st name u ip p).2 "token" Json.null =
        Json.str (toString st.nextToken) ∧
      jget (joinRoom st name u ip p).2 "status" Json.null = Json.str "success") := by
  rcases hl : lookupA st.chatRooms name with _ | room
  · refine ⟨?_, ?_, ?_, ?_, ?_⟩
    · simp [createRoom, hl, errResp]
    · simp [hl]
    · simp [joinRoom, hl]
    · intro _
      have hset : lookupA (setA st.chatRooms name
          (ChatRoom.addUser ⟨name, st.nextToken, []⟩ st.nextToken u ip p)) name =
          some (ChatRoom.addUser ⟨name, st.nextToken, []⟩ st.nextToken u ip p) :=
        lookupA_setA_self _ _ _
      refine ⟨?_, ?_, ?_, ?_, ?_, ?_, ?_⟩
      · simp [createRoom, hl]
      · simp only [createRoom, hl, Option.isSome_none, Bool.false_eq_true, if_false]
        exact hset
      · simp [createRoom, hl, jget, lookupA]
      · simp [createRoom, hl, jget, lookupA]
      · simp only [createRoom, hl, Option.isSome_none, Bool.false_eq_true, if_false]
        simp only [joinRoom, hset]
        simp [errResp]
      · simp only [createRoom, hl, Option.isSome_none, Bool.false_eq_true, if_false]
        simp only [createRoom, hset]
        simp
      · simp only [createRoom, hl, Option.isSome_none, Bool.false_eq_true, if_false]
        simp only [createRoom, hset]
        simp
    · intro room hroom
      exact absurd hroom (by simp)
  · refine ⟨?_, ?_, ?_, ?_, ?_⟩
    · simp [createRoom, hl]
    · simp [createRoom, hl]
    · simp [joinRoom, hl, errResp]
    · intro hnone
      exact absurd hnone (by simp)
    · intro room' hroom'
      injection hroom' with h'
      subst h'
      refine ⟨?_, ?_, ?_⟩
      · simp only [joinRoom, hl]
        exact lookupA_setA_self _ _ _
      · simp [joinRoom, hl, jget, lookupA]
      · simp [joinRoom, hl, jget, lookupA]

/-- C3 witness: in the empty registry, creating `"lobby"` succeeds,
joining it immediately afterwards does not fail with room-not-found,
and a second create fails with the room-exists error. -/
theorem createRoom_joinRoom_spec_witness :
    (joinRoom (createRoom Registry.init "lobby" (Json.str "alice") "10.0.0.1"
        (Json.num 2222)).1 "lobby" (Json.str "bob") "10.0.0.2" (Json.num 3333)).2 ≠
      errResp "ルームが存在しません" ∧
    (createRoom (createRoom Registry.init "lobby" (Json.str "alice") "10.0.0.1"
        (Json.num 2222)).1 "lobby" (Json.str "bob") "10.0.0.2" (Json.num 3333)).2 =
      errResp "ルームが作成済みです" :=
  ⟨((createRoom_joinRoom_spec Registry.init "lobby" (Json.str "alice") (Json.str "bob")
      "10.0.0.1" "10.0.0.2" (Json.num 2222) (Json.num 3333)).2.2.2.1 rfl).2.2.2.2.1,
   ((createRoom_joinRoom_spec Registry.init "lobby" (Json.str "alice") (Json.str "bob")
      "10.0.0.1" "10.0.0.2" (Json.num 2222) (Json.num 3333)).2.2.2.1 rfl).2.2.2.2.2.1⟩

/-- C6: teardown is idempotent.  A relay datagram naming a room that is
not in the active set is a no-op returning no members/notices (first
conjunct: this is `TeardownRoom` on a dead name).  After a host `/quit`
tears a room down, the name is gone from the active set and any
further relay datagram for it — in particular a second teardown
attempt — leaves the registry unchanged and produces the empty
sequence (second conjunct). -/
theorem teardown_idempotent (st : Registry) (name : String) (tok tok' : Nat)
    (msg msg' ip ip' : String) :
    (lookupA st.chatRooms name = none → relayMessage st name tok msg ip = (st, [])) ∧
    (∀ room m, lookupA st.chatRooms name = some room → room.isHost tok = true →
      lookupA room.tokens tok = some m → pyLower msg = "/quit" →
      lookupA (relayMessage st name tok msg ip).1.chatRooms name = none ∧
      relayMessage (relayMessage st name tok msg ip).1 name tok' msg' ip' =
        ((relayMessage st name tok msg ip).1, [])) := by
  constructor
  · intro h
    simp [relayMessage, h]
  · intro room m hroom hhost hm hq
    have hstep : (relayMessage st name tok msg ip).1.chatRooms = eraseA st.chatRooms name := by
      simp [relayMessage, hroom, hm, hq, hhost]
    have hgone : lookupA (relayMessage st name tok msg ip).1.chatRooms name = none := by
      rw [hstep]; exact lookupA_eraseA_self _ _
    refine ⟨hgone, ?_⟩
    set s2 := (relayMessage st name tok msg ip).1 with hs2
    simp [relayMessage, hgone]

/-- C6 witness: tearing `"lobby"` down via host `/quit`, then relaying
to `"lobby"` again, changes nothing and sends nothing. -/
theorem teardown_idempotent_witness :
    lookupA (relayMessage lobbyRegistry "lobby" 0 "/quit" "10.0.0.1").1.chatRooms
      "lobby" = none ∧
    relayMessage (relayMessage lobbyRegistry "lobby" 0 "/quit" "10.0.0.1").1
        "lobby" 0 "/quit" "10.0.0.1" =
      ((relayMessage lobbyRegistry "lobby" 0 "/quit" "10.0.0.1").1, []) :=
  (teardown_idempotent lobbyRegistry "lobby" 0 0 "/quit" "/quit" "10.0.0.1"
    "10.0.0.1").2 lobbyRoom aliceM rfl rfl rfl rfl

/-- C7 (amended): when a valid relay datagram's message lowercases to
`/quit` and its token is the room's host token, the room is torn down:
every member other than the host is sent exactly one closure notice —
the list of sends is exactly one Japanese system notice per non-host
membership entry — the name leaves the active set, and every subsequent
relay datagram naming that room produces no fan-out.  (The notice is
`[システム]: ホストが退出したため、ルーム:<name>が閉じられました`; it does
not contain the literal `"closed"` the original claim asked for.) -/
theorem host_quit_teardown (st : Registry) (name : String) (tok : Nat)
    (msg ip : String) (room : ChatRoom) (m : Member) :
    lookupA st.chatRooms name = some room → room.isHost tok = true →
    lookupA room.tokens tok = some m → pyLower msg = "/quit" →
    (relayMessage st name tok msg ip).2 =
      (room.tokens.filter fun kv => !(kv.1 == tok)).map
        (fun kv => ((kv.2.ip, kv.2.port),
          "[システム]: ホストが退出したため、ルーム:" ++ name ++ "が閉じられました")) ∧
    lookupA (relayMessage st name tok msg ip).1.chatRooms name = none ∧
    (∀ tok' msg' ip',
      (relayMessage (relayMessage st name tok msg ip).1 name tok' msg' ip').2 = []) := by
  intro hroom hhost hm hq
  have hsends : (relayMessage st name tok msg ip).2 =
      (room.tokens.filter fun kv => !(kv.1 == tok)).map
        (fun kv => ((kv.2.ip, kv.2.port),
          "[システム]: ホストが退出したため、ルーム:" ++ name ++ "が閉じられました")) := by
    simp [relayMessage, hroom, hm, hq, hhost]
  have hstep : (relayMessage st name tok msg ip).1.chatRooms = eraseA st.chatRooms name := by
    simp [relayMessage, hroom, hm, hq, hhost]
  have hgone : lookupA (relayMessage st name tok msg ip).1.chatRooms name = none := by
    rw [hstep]; exact lookupA_eraseA_self _ _
  refine ⟨hsends, hgone, ?_⟩
  intro tok' msg' ip'
  set s2 := (relayMessage st name tok msg ip).1 with hs2
  simp [relayMessage, hgone]

/-- C7 witness: the fixture teardown — alice quits `"lobby"`, bob gets
the single closure notice, the room is gone, later datagrams fan out to
nobody. -/
theorem host_quit_teardown_witness :
    (relayMessage lobbyRegistry "lobby" 0 "/quit" "10.0.0.1").2 =
      (lobbyRoom.tokens.filter fun kv => !(kv.1 == 0)).map
        (fun kv => ((kv.2.ip, kv.2.port),
          "[システム]: ホストが退出したため、ルーム:" ++ "lobby" ++ "が閉じられました")) ∧
    lookupA (relayMessage lobbyRegistry "lobby" 0 "/quit" "10.0.0.1").1.chatRooms
      "lobby" = none ∧
    (∀ tok' msg' ip',
      (relayMessage (relayMessage lobbyRegistry "lobby" 0 "/quit" "10.0.0.1").1
        "lobby" tok' msg' ip').2 = []) :=
  host_quit_teardown lobbyRegistry "lobby" 0 "/quit" "10.0.0.1" lobbyRoom aliceM
    rfl rfl rfl rfl

/-- C8: when a valid relay datagram's message lowercases to `/quit` and
its sender is not the host, only that member is removed: the room stays
active with exactly the sender's entry erased, every remaining member
is sent exactly one departure notice naming the departing member (the
departing member, no longer in the membership, receives nothing), and
the host's token still validates against the host's recorded IP
afterwards. -/
theorem nonhost_quit_departure (st : Registry) (name : String) (tok : Nat)
    (msg ip : String) (room : ChatRoom) (m : Member) :
    lookupA st.chatRooms name = some room → room.isHost tok = false →
    lookupA room.tokens tok = some m → pyLower msg = "/quit" →
    lookupA (relayMessage st name tok msg ip).1.chatRooms name =
      some (room.removeUser tok) ∧
    (relayMessage st name tok msg ip).2 =
      (room.removeUser tok).tokens.map
        (fun kv => ((kv.2.ip, kv.2.port),
          "[システム]: " ++ pyStr m.userName ++ "が退出しました")) ∧
    lookupA (room.removeUser tok).tokens tok = none ∧
    containsStr ("[システム]: " ++ pyStr m.userName ++ "が退出しました")
      (pyStr m.userName) = true ∧
    (∀ hm', lookupA room.tokens room.hostToken = some hm' →
      (room.removeUser tok).validatedToken room.hostToken hm'.ip = true) := by
  intro hroom hhost hm hq
  have hne : tok ≠ room.hostToken := by
    intro he
    rw [ChatRoom.isHost, he] at hhost
    simp at hhost
  refine ⟨?_, ?_, ?_, ?_, ?_⟩
  · simp only [relayMessage, hroom, hm, hq, if_pos rfl, hhost, Bool.false_eq_true, if_false]
    exact lookupA_setA_self _ _ _
  · simp [relayMessage, hroom, hm, hq, hhost]
  · exact lookupA_eraseA_self _ _
  · exact containsStr_sandwich "[システム]: " (pyStr m.userName) "が退出しました"
  · intro hm' hhm'
    unfold ChatRoom.validatedToken ChatRoom.removeUser
    rw [lookupA_eraseA_ne room.tokens tok room.hostToken (fun h => hne h.symm), hhm']
    simp

/-- C8 witness: bob (non-host) quits `"lobby"`; alice gets the one
departure notice naming bob, the room stays active, and alice's token
still validates from her recorded IP. -/
theorem nonhost_quit_departure_witness :
    lookupA (relayMessage lobbyRegistry "lobby" 1 "/quit" "10.0.0.2").1.chatRooms
      "lobby" = some (lobbyRoom.removeUser 1) ∧
    (relayMessage lobbyRegistry "lobby" 1 "/quit" "10.0.0.2").2 =
      (lobbyRoom.removeUser 1).tokens.map
        (fun kv => ((kv.2.ip, kv.2.port),
          "[システム]: " ++ pyStr bobM.userName ++ "が退出しました")) ∧
    (lobbyRoom.removeUser 1).validatedToken lobbyRoom.hostToken aliceM.ip = true :=
  have h := nonhost_quit_departure lobbyRegistry "lobby" 1 "/quit" "10.0.0.2"
    lobbyRoom bobM rfl rfl rfl rfl
  ⟨h.1, h.2.1, h.2.2.2.2 aliceM rfl⟩

theorem hostInv_createRoom (st : Registry) (rn : String) (un : Json) (ip : String)
    (up : Json) (h : HostInvariant st) : HostInvariant (createRoom st rn un ip up).1 := by
  unfold createRoom
  by_cases hl : (lookupA st.chatRooms rn).isSome
  · simpa [hl] using h
  · simp only [hl, Bool.false_eq_true, if_false]
    intro name room hlk
    by_cases hn : name = rn
    · subst hn
      rw [lookupA_setA_self] at hlk
      injection hlk with h'
      subst h'
      simp [ChatRoom.addUser, setA, lookupA]
    · rw [lookupA_setA_ne _ _ _ _ hn] at hlk
      exact h name room hlk

theorem hostInv_joinRoom (st : Registry) (rn : String) (un : Json) (ip : String)
    (up : Json) (h : HostInvariant st) : HostInvariant (joinRoom st rn un ip up).1 := by
  rcases hl : lookupA st.chatRooms rn with _ | room0
  · have hst : (joinRoom st rn un ip up).1 = st := by simp [joinRoom, hl]
    rw [hst]; exact h
  · have hch : (joinRoom st rn un ip up).1.chatRooms
        = setA st.chatRooms rn (room0.addUser st.nextToken un ip up) := by
      simp [joinRoom, hl]
    intro name room hlk
    rw [hch] at hlk
    by_cases hn : name = rn
    · subst hn
      rw [lookupA_setA_self] at hlk
      injection hlk with h'
      subst h'
      show (lookupA (setA room0.tokens st.nextToken ⟨un, ip, up⟩) room0.hostToken).isSome
        = true
      by_cases ht : room0.hostToken = st.nextToken
      · rw [ht, lookupA_setA_self]; rfl
      · rw [lookupA_setA_ne _ _ _ _ ht]
        exact h name room0 hl
    · rw [lookupA_setA_ne _ _ _ _ hn] at hlk
      exact h name room hlk

theorem hostInv_relay (st : Registry) (n : String) (t : Nat) (m i : String)
    (h : HostInvariant st) : HostInvariant (relayMessage st n t m i).1 := by
  rcases hr : lookupA st.chatRooms n with _ | room
  · have hst : (relayMessage st n t m i).1 = st := by simp [relayMessage, hr]
    rw [hst]; exact h
  · rcases hm : lookupA room.tokens t with _ | sender
    · have hst : (relayMessage st n t m i).1 = st := by simp [relayMessage, hr, hm]
      rw [hst]; exact h
    · by_cases hq : pyLower m = "/quit"
      · by_cases hh : room.isHost t = true
        · have hch : (relayMessage st n t m i).1.chatRooms = eraseA st.chatRooms n := by
            simp [relayMessage, hr, hm, hq, hh]
          intro name r hlk
          rw [hch] at hlk
          by_cases hn : name = n
          · subst hn
            rw [lookupA_eraseA_self] at hlk
            exact absurd hlk (by simp)
          · rw [lookupA_eraseA_ne _ _ _ hn] at hlk
            exact h name r hlk
        · have hch : (relayMessage st n t m i).1.chatRooms
              = setA st.chatRooms n (room.removeUser t) := by
            simp [relayMessage, hr, hm, hq, hh]
          intro name r hlk
          rw [hch] at hlk
          by_cases hn : name = n
          · subst hn
            rw [lookupA_setA_self] at hlk
            injection hlk with h'
            subst h'
            have hne : t ≠ room.hostToken := by
              intro he
              rw [ChatRoom.isHost, he] at hh
              simp at hh
            show (lookupA (eraseA room.tokens t) room.hostToken).isSome = true
            rw [lookupA_eraseA_ne _ _ _ (fun he => hne he.symm)]
            exact h name room hr
          · rw [lookupA_setA_ne _ _ _ _ hn] at hlk
            exact h name r hlk
      · have hst : (relayMessage st n t m i).1 = st := by simp [relayMessage, hr, hm, hq]
        rw [hst]; exact h

theorem hostInv_step (loads : List Nat → Option Json) (st : Registry) (op : SysOp)
    (h : HostInvariant st) : HostInvariant (stepOp loads st op) := by
  cases op with
  | tcp ip data =>
    show HostInvariant (handleTcpClient loads st ip data).1
    rcases hd : decodeRequest loads data with _ | ⟨operation, state, rn, un, up⟩
    · simpa [handleTcpClient, hd] using h
    · by_cases hs : state = 0
      · subst hs
        simp only [handleTcpClient, hd, if_pos rfl]
        by_cases h1 : operation = 1
        · simpa [h1] using hostInv_createRoom st rn un ip up h
        · by_cases h2 : operation = 2
          · simpa [h1, h2] using hostInv_joinRoom st rn un ip up h
          · by_cases h3 : operation = 3
            · simpa [h1, h2, h3] using h
            · simpa [h1, h2, h3] using h
      · simpa [handleTcpClient, hd, hs] using h
  | udp n t m i => exact hostInv_relay st n t m i h

theorem hostInv_runAux (loads : List Nat → Option Json) (ops : List SysOp)
    (st : Registry) (h : HostInvariant st) :
    HostInvariant (ops.foldl (stepOp loads) st) := by
  induction ops generalizing st with
  | nil => exact h
  | cons op t ih => exact ih _ (hostInv_step loads st op h)

/-- C9: in every registry state reachable from server start by any
sequence of control-plane connections (create/join/list/garbage) and
relay datagrams (chat, member departure, teardown), every active room's
host token is still a key of that room's membership: only teardown,
which removes the whole room, ever removes the host's entry. -/
theorem host_always_member (loads : List Nat → Option Json) (ops : List SysOp) :
    HostInvariant (runOps loads ops) :=
  hostInv_runAux loads ops Registry.init
    (by intro name room h; simp [Registry.init, lookupA] at h)

/-- C9 witness: after one create request for `"lobby"`, the invariant
instantiated at the resulting concrete room shows the host token 0 is a
member key. -/
theorem host_always_member_witness :
    (lookupA (ChatRoom.mk "lobby" 0
      [(0, ⟨Json.str "", "10.0.0.1", Json.num 0⟩)]).tokens 0).isSome = true :=
  host_always_member (fun _ => none) [SysOp.tcp "10.0.0.1" createLobbyRequest] "lobby"
    (ChatRoom.mk "lobby" 0 [(0, ⟨Json.str "", "10.0.0.1", Json.num 0⟩)]) rfl

/-- C10: create/join requests with an empty payload (`P = 0`), an
undecodable or non-JSON payload (`loads` fails), a non-dict JSON
payload, or a JSON dict lacking the `user_name`/`udp_port` keys are NOT
rejected: the handler substitutes the defaults `user_name = ""` and
`udp_port = 0`; and the registry operations register whatever
`user_name`/`udp_port` values they are handed — here an arbitrary
`Json` value `p`, so in particular no 0–65535 range check (or any other
check) is ever applied to the port. -/
theorem payload_defaults_no_validation (loads : List Nat → Option Json)
    (bs : List Nat) (st : Registry) (name : String) (u : Json) (ip : String) (p : Json) :
    (payloadFields loads 0 bs = (Json.str "", Json.num 0)) ∧
    (∀ n, 0 < n → loads bs = none →
      payloadFields loads n bs = (Json.str "", Json.num 0)) ∧
    (∀ n j, 0 < n → loads bs = some j → (∀ kvs, j ≠ Json.obj kvs) →
      payloadFields loads n bs = (Json.str "", Json.num 0)) ∧
    (∀ n kvs, 0 < n → loads bs = some (Json.obj kvs) →
      lookupA kvs "user_name" = none → lookupA kvs "udp_port" = none →
      payloadFields loads n bs = (Json.str "", Json.num 0)) ∧
    (lookupA st.chatRooms name = none →
      jget (createRoom st name u ip p).2 "status" Json.null = Json.str "success" ∧
      lookupA (createRoom st name u ip p).1.chatRooms name =
        some ⟨name, st.nextToken, [(st.nextToken, ⟨u, ip, p⟩)]⟩) ∧
    (∀ room, lookupA st.chatRooms name = some room →
      jget (joinRoom st name u ip p).2 "status" Json.null = Json.str "success" ∧
      lookupA (joinRoom st name u ip p).1.chatRooms name =
        some (room.addUser st.nextToken u ip p)) := by
  refine ⟨?_, ?_, ?_, ?_, ?_, ?_⟩
  · simp [payloadFields]
  · intro n hn hl
    simp [payloadFields, hn, hl]
  · intro n j hn hl hne
    cases j with
    | obj kvs => exact absurd rfl (hne kvs)
    | null => simp [payloadFields, hn, hl]
    | bool b => simp [payloadFields, hn, hl]
    | num k => simp [payloadFields, hn, hl]
    | str s => simp [payloadFields, hn, hl]
    | arr xs => simp [payloadFields, hn, hl]
  · intro n kvs hn hl hu hp
    simp [payloadFields, hn, hl, hu, hp]
  · intro hnone
    constructor
    · simp [createRoom, hnone, jget, lookupA]
    · simp only [createRoom, hnone, Option.isSome_none, Bool.false_eq_true, if_false]
      exact lookupA_setA_self _ _ _
  · intro room hroom
    constructor
    · simp [joinRoom, hroom, jget, lookupA]
    · simp only [joinRoom, hroom]
      exact lookupA_setA_self _ _ _

/-- C10 witness: an empty payload yields the defaults, and a create
request registers a member with an out-of-range port value 99999
without complaint. -/
theorem payload_defaults_no_validation_witness :
    payloadFields (fun _ => none) 0 [] = (Json.str "", Json.num 0) ∧
    lookupA (createRoom Registry.init "lobby" (Json.str "") "10.0.0.1"
        (Json.num 99999)).1.chatRooms "lobby" =
      some ⟨"lobby", 0, [(0, ⟨Json.str "", "10.0.0.1", Json.num 99999⟩)]⟩ :=
  have h := payload_defaults_no_validation (fun _ => none) [] Registry.init "lobby"
    (Json.str "") "10.0.0.1" (Json.num 99999)
  ⟨h.1, (h.2.2.2.2.1 rfl).2⟩

theorem dispatch_resp_shape (st : Registry) (name : String) (u : Json) (ip : String)
    (p : Json) (op : Nat) :
    (respStateByte (if op = 1 then createRoom st name u ip p
        else if op = 2 then joinRoom st name u ip p
        else if op = 3 then (st, listRooms st)
        else (st, errResp "不正な操作です")).2 = 2 ∧
      jget (if op = 1 then createRoom st name u ip p
        else if op = 2 then joinRoom st name u ip p
        else if op = 3 then (st, listRooms st)
        else (st, errResp "不正な操作です")).2 "status" Json.null = Json.str "success") ∨
    (respStateByte (if op = 1 then createRoom st name u ip p
        else if op = 2 then joinRoom st name u ip p
        else if op = 3 then (st, listRooms st)
        else (st, errResp "不正な操作です")).2 = 1 ∧
      jget (if op = 1 then createRoom st name u ip p
        else if op = 2 then joinRoom st name u ip p
        else if op = 3 then (st, listRooms st)
        else (st, errResp "不正な操作です")).2 "status" Json.null = Json.str "error") := by
  by_cases h1 : op = 1
  · subst h1
    by_cases hl : (lookupA st.chatRooms name).isSome
    · right
      constructor <;> simp [createRoom, hl, errResp, respStateByte, jget, lookupA]
    · left
      constructor <;> simp [createRoom, hl, respStateByte, jget, lookupA]
  · by_cases h2 : op = 2
    · subst h2
      rcases hl : lookupA st.chatRooms name with _ | room
      · right
        constructor <;> simp [h1, joinRoom, hl, errResp, respStateByte, jget, lookupA]
      · left
        constructor <;> simp [h1, joinRoom, hl, respStateByte, jget, lookupA]
    · by_cases h3 : op = 3
      · subst h3
        left
        constructor <;> simp [h1, h2, listRooms, respStateByte, jget, lookupA]
      · right
        constructor <;> simp [h1, h2, h3, errResp, respStateByte, jget, lookupA]

/-- C2 (amended): the handler writes AT MOST one response frame, and it
writes one exactly when the request parses (at least three header bytes
arrived and the room-name slice is valid UTF-8 — payload failures are
silently defaulted, not rejected) and the request's state byte is 0.
When a response frame is written, its state byte is 2 with a
`"status": "success"` body exactly on success and 1 with a
`"status": "error"` body exactly on error (unknown operation or
registry refusal).  Decode failures and nonzero state bytes produce no
response frame at all — the connection is closed unanswered and the
registry is untouched. -/
theorem tcp_response_discipline (loads : List Nat → Option Json) (st : Registry)
    (ip : String) (data : List Nat) :
    ((handleTcpClient loads st ip data).2.isSome = true ↔
      ∃ op name u p, decodeRequest loads data = some (op, 0, name, u, p)) ∧
    (∀ f, (handleTcpClient loads st ip data).2 = some f →
      (f.stateByte = 2 ∧ jget f.body "status" Json.null = Json.str "success") ∨
      (f.stateByte = 1 ∧ jget f.body "status" Json.null = Json.str "error")) ∧
    ((handleTcpClient loads st ip data).2 = none →
      (handleTcpClient loads st ip data).1 = st) := by
  rcases hd : decodeRequest loads data with _ | ⟨op, state, name, u, p⟩
  · refine ⟨?_, ?_, ?_⟩
    · simp [handleTcpClient, hd]
    · intro f hf
      simp [handleTcpClient, hd] at hf
    · intro _
      simp [handleTcpClient, hd]
  · by_cases hs : state = 0
    · subst hs
      have hres : handleTcpClient loads st ip data =
          ((if op = 1 then createRoom st name u ip p
            else if op = 2 then joinRoom st name u ip p
            else if op = 3 then (st, listRooms st)
            else (st, errResp "不正な操作です")).1,
           some (sendTcpResponse name op
            (if op = 1 then createRoom st name u ip p
              else if op = 2 then joinRoom st name u ip p
              else if op = 3 then (st, listRooms st)
              else (st, errResp "不正な操作です")).2)) := by
        simp [handleTcpClient, hd]
      refine ⟨?_, ?_, ?_⟩
      · constructor
        · intro _
          exact ⟨op, name, u, p, rfl⟩
        · intro _
          rw [hres]
          rfl
      · intro f hf
        rw [hres] at hf
        simp only [Option.some.injEq] at hf
        rw [← hf]
        exact dispatch_resp_shape st name u ip p op
      · intro hnone
        rw [hres] at hnone
        exact absurd hnone (by simp)
    · refine ⟨?_, ?_, ?_⟩
      · constructor
        · intro hsome
          simp [handleTcpClient, hd, hs] at hsome
        · rintro ⟨op', name', u', p', he⟩
          injection he with he'
          exact absurd (congrArg (fun q => q.2.1) he') hs
      · intro f hf
        simp [handleTcpClient, hd, hs] at hf
      · intro _
        simp [handleTcpClient, hd, hs]

/-- C2 witness: on a well-formed create request for a fresh room the
handler writes a frame, and that frame reports success with state
byte 2. -/
theorem tcp_response_discipline_witness :
    (handleTcpClient (fun _ => none) Registry.init "10.0.0.1"
      createLobbyRequest).2.isSome = true ∧
    (∀ f, (handleTcpClient (fun _ => none) Registry.init "10.0.0.1"
        createLobbyRequest).2 = some f →
      (f.stateByte = 2 ∧ jget f.body "status" Json.null = Json.str "success") ∨
      (f.stateByte = 1 ∧ jget f.body "status" Json.null = Json.str "error")) :=
  have h := tcp_response_discipline (fun _ => none) Registry.init "10.0.0.1"
    createLobbyRequest
  ⟨h.1.mpr ⟨1, "lobby", Json.str "", Json.num 0, rfl⟩, h.2.1⟩

/-- C5: a control-plane frame built by the client (`_send_tcp_request`)
from a room name of at most 255 UTF-8 bytes, an operation code, and the
`{"user_name": ..., "udp_port": ...}` JSON payload, decodes on the
server (`_handle_tcp_client`'s parsing phase) back to exactly the
original operation code, state 0, room name, and payload field values.
The JSON serialization itself is CPython's `json` module; its round
trip (`loads ∘ dumps = id` on this payload, producing at least one
byte) is a hypothesis about that library, not about the repository. -/
theorem frame_roundtrip (dumps : Json → List Nat) (loads : List Nat → Option Json)
    (operation : Nat) (roomName userName : String) (udpPort : Int) :
    (utf8Encode roomName).length ≤ 255 → operation ≤ 255 →
    0 < (dumps (Json.obj [("user_name", Json.str userName),
      ("udp_port", Json.num udpPort)])).length →
    (dumps (Json.obj [("user_name", Json.str userName),
      ("udp_port", Json.num udpPort)])).length < 256 ^ 29 →
    loads (dumps (Json.obj [("user_name", Json.str userName),
        ("udp_port", Json.num udpPort)])) =
      some (Json.obj [("user_name", Json.str userName), ("udp_port", Json.num udpPort)]) →
    ∀ req, sendTcpRequest dumps roomName userName udpPort operation = some req →
      decodeRequest loads req =
        some (operation, 0, roomName, Json.str userName, Json.num udpPort) := by
  intro hL hop hP0 hP hld req hreq
  unfold sendTcpRequest at hreq
  rw [if_pos ⟨hL, hop, hP⟩] at hreq
  injection hreq with hreq
  subst hreq
  set nb := utf8Encode roomName with hnb
  set pb := dumps (Json.obj [("user_name", Json.str userName),
    ("udp_port", Json.num udpPort)]) with hpb
  set tb := toBytesBE 29 pb.length with htb
  have hlen3 : ¬((nb.length :: operation :: 0 :: (tb ++ nb ++ pb)).length < 3) := by
    simp only [List.length_cons]
    omega
  have hget0 : (nb.length :: operation :: 0 :: (tb ++ nb ++ pb)).getD 0 0 = nb.length := rfl
  have hget1 : (nb.length :: operation :: 0 :: (tb ++ nb ++ pb)).getD 1 0 = operation := rfl
  have hget2 : (nb.length :: operation :: 0 :: (tb ++ nb ++ pb)).getD 2 0 = 0 := rfl
  have htake3 : ∀ (a b c : Nat) (l : List Nat),
      (a :: b :: c :: l).take 32 = a :: b :: c :: l.take 29 := by
    intro a b c l
    rw [show (32 : Nat) = 31 + 1 from rfl, List.take_succ_cons,
        show (31 : Nat) = 30 + 1 from rfl, List.take_succ_cons,
        show (30 : Nat) = 29 + 1 from rfl, List.take_succ_cons]
  have hdrop3 : ∀ (a b c : Nat) (l : List Nat),
      (a :: b :: c :: l).drop 32 = l.drop 29 := by
    intro a b c l
    rw [show (32 : Nat) = 31 + 1 from rfl, List.drop_succ_cons,
        show (31 : Nat) = 30 + 1 from rfl, List.drop_succ_cons,
        show (30 : Nat) = 29 + 1 from rfl, List.drop_succ_cons]
  have htk : ((nb.length :: operation :: 0 :: (tb ++ nb ++ pb)).take 32).drop 3 = tb := by
    rw [htake3]
    rw [show (3 : Nat) = 2 + 1 from rfl, List.drop_succ_cons,
        show (2 : Nat) = 1 + 1 from rfl, List.drop_succ_cons,
        show (1 : Nat) = 0 + 1 from rfl, List.drop_succ_cons, List.drop_zero]
    rw [List.append_assoc]
    exact List.take_left' (length_toBytesBE 29 pb.length)
  have hdr : (nb.length :: operation :: 0 :: (tb ++ nb ++ pb)).drop 32 = nb ++ pb := by
    rw [hdrop3]
    have h29 : tb.length = 29 := length_toBytesBE 29 pb.length
    rw [List.append_assoc]
    exact List.drop_left' h29
  have hsize : fromBytesBE tb = pb.length := fromBytesBE_toBytesBE 29 pb.length hP
  have hbody : (nb ++ pb).take (nb.length + pb.length) = nb ++ pb :=
    List.take_of_length_le (by simp)
  have hname : (nb ++ pb).take nb.length = nb := List.take_left nb pb
  have hdec : utf8Decode? nb = some roomName := utf8Decode?_utf8Encode roomName
  have hdrop2 : (nb ++ pb).drop nb.length = pb := List.drop_left nb pb
  have hfields : payloadFields loads pb.length pb = (Json.str userName, Json.num udpPort) := by
    rw [payloadFields, if_pos hP0, hld]
    simp [lookupA]
  unfold decodeRequest
  rw [if_neg hlen3]
  simp only [hget0, hget1, hget2, htk, hsize, hdr, hbody, hname, hdec, hdrop2, hfields]

/-- C5 witness: the concrete round trip for room `"ab"`, user `"u"`,
port 7, operation 1, with a one-byte stand-in serialization whose
deserialization returns the original payload object. -/
theorem frame_roundtrip_witness :
    decodeRequest
        (fun _ => some (Json.obj [("user_name", Json.str "u"), ("udp_port", Json.num 7)]))
        (2 :: 1 :: 0 :: (toBytesBE 29 1 ++ [97, 98] ++ [48]))
      = some (1, 0, "ab", Json.str "u", Json.num 7) :=
  frame_roundtrip (fun _ => [48])
    (fun _ => some (Json.obj [("user_name", Json.str "u"), ("udp_port", Json.num 7)]))
    1 "ab" "u" 7 (by decide) (by decide) (by decide) (by decide) rfl
    (2 :: 1 :: 0 :: (toBytesBE 29 1 ++ [97, 98] ++ [48])) rfl
